import Mathlib

/-!
# Verification of the 7tv front-end repository

Shallow embedding of the parts of the SevenTV/7tv repository that the
specification talks about:

* the route-loader `.then` handlers of `src/apps/website/src/routes/users/[id]/+layout.ts`
  and of the emote layout loader (`src/unnamed/part_000`), including their
  error/rejection behaviour;
* the streamed-async-proxy pattern (`ProxyState`, and the one-fetch-per-key-change
  re-run discipline of the loaders);
* the `select.svelte` component state (initial selection, `select` handler,
  button label fallback);
* the admin special-events page `tbody` await block;
* the `settings/+page.ts` redirect guard;
* the ClickHouse activity-table DDL appended to `src/website/src/routes/settings/+page.ts`;
* the Kubernetes manifest `src/infrastructure/cluster/kubectl/app/image-processor.yaml`.

JavaScript promises are modelled by their eventual outcome (`Except`/`PromiseOutcome`),
nullable values by `Option`, and throw-inside-`.then` by `Except.error`.
-/

set_option autoImplicit false

namespace SevenTV

/-! ### GraphQL results and the route-loader then-handlers

`gqlClient().query(...).toPromise()` resolves with an operation result that
carries an optional `error` and optional `data`; it does not reject on
GraphQL errors.  `GqlResult D` models such a result, where `D` is the shape
of the (nullable) data payload.
-/

/-- An urql operation result: a possibly-set error and possibly-missing data. -/
structure GqlResult (D : Type) where
  error : Bool
  data : Option D
  deriving DecidableEq

/-- One entry of the `roles { name color { hex } }` selection of the
`OneUser` query in `src/apps/website/src/routes/users/[id]/+layout.ts`. -/
structure Role where
  name : String
  colorHex : Option String
  deriving DecidableEq

/-- The user payload of the `OneUser` query: its `roles` list plus the rest of
the selected fields, kept abstract as `β`. -/
structure UserData (β : Type) where
  roles : List Role
  rest : β
  deriving DecidableEq

/-- The `.then` handler of the user layout loader
(`src/apps/website/src/routes/users/[id]/+layout.ts`, lines 215-227):

* `if (res.error || !res.data) throw "Failed to load user";`
* `if (!res.data.users.user) throw "User not found";`
* `res.data.users.user.roles = filterRoles(res.data.users.user.roles); return res.data.users.user;`

`filterRoles` lives in `$/lib/utils`, which is not part of the sources, so it
is passed in as a parameter.  The data payload `res.data.users.user` is
modelled as `Option (Option (UserData β))`: outer `Option` for `res.data`,
inner for the nullable `user` field.  A thrown string is a rejection of the
streamed promise, i.e. `Except.error`. -/
def userLoadThen {β : Type} (filterRoles : List Role → List Role)
    (res : GqlResult (Option (UserData β))) : Except String (UserData β) :=
  if res.error then Except.error "Failed to load user"
  else
    match res.data with
    | none => Except.error "Failed to load user"
    | some none => Except.error "User not found"
    | some (some u) => Except.ok { u with roles := filterRoles u.roles }

/-- The `.then` handler of the emote layout loader (`src/unnamed/part_000`,
line 177): `(res) => res.data?.emotes.emote as Emote`.  The optional chain
yields `undefined` when `res.data` is missing; the nullable `emote` field is
the inner `Option`. -/
def emoteLoadThen {E : Type} (res : GqlResult (Option E)) : Option E :=
  match res.data with
  | none => none
  | some e => e

/-- The streamed promise handed to the emote page: the `.then` mapping never
throws, so the promise always resolves (with a possibly-missing value). -/
def emoteStreamedPromise {E : Type} (res : GqlResult (Option E)) :
    Except String (Option E) :=
  Except.ok (emoteLoadThen res)

/-! ### Streamed async proxy -/

/-- The eventual outcome of a JavaScript promise. -/
inductive PromiseOutcome (A : Type) where
  | resolved (v : A)
  | rejected (reason : String)
  deriving DecidableEq

/-- Modelled from the spec: the `ProxyState` class of `$/lib/proxy.svelte`
(imported at `src/apps/website/src/routes/users/[id]/+layout.ts` line 6 and
constructed at line 229) is not among the source files.  Per the spec it is
"constructed with a pending request; exposes the eventual resolved value or
propagates the rejection to the consumer".  The pending request is modelled
by its eventual outcome. -/
structure ProxyState (A : Type) where
  request : PromiseOutcome A

/-- What the consuming template eventually sees when it awaits the proxy. -/
inductive ConsumerView (A : Type) where
  | success (v : A)
  | failure (reason : String)
  deriving DecidableEq

/-- Modelled from the spec: the consumer-facing value of a `ProxyState`
("exposes the eventual resolved value or propagates the rejection"). -/
def ProxyState.consumerView {A : Type} (s : ProxyState A) : ConsumerView A :=
  match s.request with
  | .resolved v => .success v
  | .rejected r => .failure r

/-- Modelled from the spec: the re-run discipline of the streamed async proxy
("repeated navigations with the same key do not trigger redundant requests,
while navigations with a new key do", one fetch per key change).  The loader
registers its identity key via `depends` and reads `params.id`
(`src/unnamed/part_000`, lines 8-13); the framework re-runs the loader, and
hence its `network-only` fetch, exactly when that key changes.  `fetchesFrom
last trace` is the list of fetches issued over a navigation trace, starting
from a state whose last loaded key is `last`. -/
def fetchesFrom : Option String → List String → List String
  | _, [] => []
  | last, k :: rest =>
    if last = some k then fetchesFrom last rest
    else k :: fetchesFrom (some k) rest

/-- Helper: the fetch list never repeats a key in adjacent positions, and its
head differs from the starting key. -/
theorem fetchesFrom_chain (trace : List String) : ∀ last : Option String,
    List.Chain' (· ≠ ·) (fetchesFrom last trace) ∧
      (∀ k ts, fetchesFrom last trace = k :: ts → last ≠ some k) := by
  induction trace with
  | nil => intro last; exact ⟨List.chain'_nil, fun k ts h => nomatch h⟩
  | cons k rest ih =>
    intro last
    by_cases hlast : last = some k
    · constructor
      · simpa [fetchesFrom, hlast] using (ih last).1
      · intro k0 ts h
        rw [fetchesFrom, if_pos hlast] at h
        exact (ih last).2 k0 ts h
    · constructor
      · rw [fetchesFrom, if_neg hlast]
        rcases (ih (some k)) with ⟨hchain, hhead⟩
        cases hfr : fetchesFrom (some k) rest with
        | nil => simp
        | cons k1 ts =>
          rw [hfr] at hchain
          refine List.chain'_cons.mpr ⟨?_, hchain⟩
          intro hk
          exact (hhead k1 ts hfr) (by rw [hk])
      · intro k0 ts h
        rw [fetchesFrom, if_neg hlast] at h
        cases h
        exact hlast

/-! ### Select component (`src/apps/website/src/components/input/select.svelte`) -/

/-- The `Option` type exported by the component module (`value`, `label`;
the optional icon snippet is presentation-only and omitted). -/
structure SelectOption where
  value : String
  label : String
  deriving DecidableEq

/-- The reactive state of the component that the claims are about. -/
structure SelectState where
  selected : Option String
  expanded : Bool
  deriving DecidableEq

/-- The `$bindable` default of `selected` when the caller binds no value:
`options[0]?.value ?? undefined` (line 27). -/
def Select.initSelected (options : List SelectOption) : Option String :=
  options.head?.map (·.value)

/-- `selectedLabel = $derived(options.find((o) => o.value === selected))`
(line 33). -/
def Select.selectedLabel (options : List SelectOption) (selected : Option String) :
    Option SelectOption :=
  options.find? (fun o => some o.value == selected)

/-- The i18n key of the fallback label `$t("labels.select")` (line 73). -/
def Select.labelSelect : String := "labels.select"

/-- What the button renders: the selected option's label when
`selectedLabel` is set, otherwise the fallback select label (lines 69-74). -/
def Select.buttonLabel (options : List SelectOption) (selected : Option String) :
    String :=
  match Select.selectedLabel options selected with
  | some o => o.label
  | none => Select.labelSelect

/-- The `select(option)` handler (lines 45-48): sets `selected` and closes
the dropdown. -/
def Select.select (st : SelectState) (option : String) : SelectState :=
  { st with selected := some option, expanded := false }

/-! ### Admin special-events table (`tbody` await block of the admin page) -/

/-- The state of a Svelte `{#await}` block over the `results` promise. -/
inductive AwaitState (A : Type) where
  | pending
  | resolved (v : A)
  | rejected
  deriving DecidableEq

/-- A row rendered inside the `tbody` of the special-events table. -/
inductive TbodyRow (E : Type) where
  | spinner
  | noSpecialEvents
  | result (ev : E)
  deriving DecidableEq

/-- The `tbody` await block of the admin special-events page: a spinner row
while pending; then, `{#if results && results.length > 0}` one row per
special event, `{:else}` the single "No Special Events" row.  `results`
resolves with the possibly-missing list returned by `querySpecialEvents`
(`res.data?.specialEvents.specialEvents`). -/
def renderSpecialEventsTbody {E : Type} :
    AwaitState (Option (List E)) → List (TbodyRow E)
  | .pending => [.spinner]
  | .rejected => []
  | .resolved none => [.noSpecialEvents]
  | .resolved (some evs) =>
    if 0 < evs.length then evs.map TbodyRow.result else [.noSpecialEvents]

/-! ### Settings page guard (`src/website/src/routes/settings/+page.ts`) -/

/-- The outcome of the settings `load` function: either the thrown redirect
or a normal return. -/
inductive SettingsLoadResult where
  | redirect (status : Nat) (location : String)
  | ok
  deriving DecidableEq

/-- `load()` of the settings page: `if (!get(user)) redirect(303,
"/sign-in?continue=/settings");` — the user store's falsy content is
modelled as `none`. -/
def settingsLoad {U : Type} (user : Option U) : SettingsLoadResult :=
  match user with
  | none => .redirect 303 "/sign-in?continue=/settings"
  | some _ => .ok

/-! ### ClickHouse activity tables (DDL appended to the settings route file) -/

/-- One variant of a ClickHouse `Enum8` column: symbolic name and code. -/
structure EnumVariant where
  name : String
  code : Nat
  deriving DecidableEq

/-- A column of a ClickHouse table (type rendered as its DDL text). -/
structure ClickhouseColumn where
  name : String
  type : String
  deriving DecidableEq

/-- A ClickHouse table of the activity DDL: columns, the variants of the
`kind` enum column, the engine, and the `ORDER BY` tuple. -/
structure ClickhouseTable where
  name : String
  columns : List ClickhouseColumn
  kindEnum : List EnumVariant
  engine : String
  orderBy : List String
  deriving DecidableEq

/-- `CREATE TABLE emote_activities` of the activity DDL. -/
def emote_activities : ClickhouseTable where
  name := "emote_activities"
  columns := [⟨"emote_id", "UUID"⟩, ⟨"actor_id", "Nullable(UUID)"⟩,
    ⟨"kind", "Enum8"⟩, ⟨"timestamp", "DateTime64(9)"⟩]
  kindEnum := [⟨"UPLOAD", 0⟩, ⟨"EDIT", 1⟩, ⟨"MERGE", 2⟩, ⟨"DELETE", 3⟩]
  engine := "MergeTree"
  orderBy := ["emote_id", "kind", "timestamp"]

/-- `CREATE TABLE emote_set_activities` of the activity DDL. -/
def emote_set_activities : ClickhouseTable where
  name := "emote_set_activities"
  columns := [⟨"emote_set_id", "UUID"⟩, ⟨"actor_id", "Nullable(UUID)"⟩,
    ⟨"kind", "Enum8"⟩, ⟨"timestamp", "DateTime64(9)"⟩]
  kindEnum := [⟨"CREATE", 0⟩, ⟨"EDIT", 1⟩, ⟨"DELETE", 2⟩]
  engine := "MergeTree"
  orderBy := ["emote_set_id", "kind", "timestamp"]

/-- `CREATE TABLE user_activities` of the activity DDL. -/
def user_activities : ClickhouseTable where
  name := "user_activities"
  columns := [⟨"user_id", "UUID"⟩, ⟨"actor_id", "Nullable(UUID)"⟩,
    ⟨"kind", "Enum8"⟩, ⟨"timestamp", "DateTime64(9)"⟩]
  kindEnum := [⟨"REGISTER", 0⟩, ⟨"LOGIN", 1⟩, ⟨"LOGOUT", 2⟩, ⟨"EDIT", 3⟩,
    ⟨"DELETE", 4⟩, ⟨"MERGE", 5⟩, ⟨"BAN", 6⟩, ⟨"UNBAN", 7⟩]
  engine := "MergeTree"
  orderBy := ["user_id", "kind", "timestamp"]

/-! ### image-processor Kubernetes manifest -/

/-- A Kubernetes port reference: either a named port or a number. -/
inductive PortRef where
  | name (n : String)
  | num (n : Nat)
  deriving DecidableEq

/-- An `httpGet` probe action: port reference and path. -/
structure HttpGet where
  port : PortRef
  path : String
  deriving DecidableEq

/-- A probe handler (only `httpGet` occurs in this manifest). -/
inductive ProbeHandler where
  | httpGet (g : HttpGet)
  | tcpSocket (port : PortRef)
  | exec (command : List String)
  deriving DecidableEq

/-- A container port declaration (`containerPort`, `name`). -/
structure ContainerPort where
  containerPort : Nat
  name : String
  deriving DecidableEq

/-- The container fields of the Deployment that the claims are about. -/
structure ContainerSpec where
  name : String
  image : String
  livenessProbe : Option ProbeHandler
  readinessProbe : Option ProbeHandler
  ports : List ContainerPort
  deriving DecidableEq

/-- A Service port: name, exposed port, and target port reference. -/
structure ServicePort where
  name : String
  port : Nat
  targetPort : PortRef
  deriving DecidableEq

/-- The `image-processor` container of the Deployment in
`src/infrastructure/cluster/kubectl/app/image-processor.yaml`. -/
def imageProcessorContainer : ContainerSpec where
  name := "image-processor"
  image := "ghcr.io/seventv/image-processor:latest"
  livenessProbe := some (.httpGet { port := .name "metrics", path := "/health" })
  readinessProbe := some (.httpGet { port := .name "metrics", path := "/health" })
  ports := [⟨50051, "grpc"⟩, ⟨9000, "metrics"⟩]

/-- The ports of the `image-processor` Service in the same manifest. -/
def imageProcessorServicePorts : List ServicePort :=
  [{ name := "grpc", port := 50051, targetPort := .name "grpc" },
   { name := "metrics", port := 9000, targetPort := .num 9000 }]

/-- Resolve a port reference against a container's declared ports, the way
Kubernetes resolves named `targetPort`/probe ports. -/
def resolvePortRef (ports : List ContainerPort) : PortRef → Option Nat
  | .name n => (ports.find? (fun p => p.name == n)).map (·.containerPort)
  | .num n => some n

/-! ## Theorems for the claims -/

/-- C1 counterexample: the emote route loader (`src/unnamed/part_000`) maps
its result with `res.data?.emotes.emote`, so on a response with a GraphQL
error and no data the streamed promise RESOLVES successfully carrying no
value — it does not reject with either failure text, contradicting the
claim's "never as a successful resolution carrying no value". -/
theorem emote_load_resolves_without_value :
    emoteStreamedPromise (E := Unit) { error := true, data := none } =
      Except.ok none ∧
    emoteStreamedPromise (E := Unit) { error := true, data := none } ≠
      Except.error "Failed to load user" ∧
    emoteStreamedPromise (E := Unit) { error := true, data := none } ≠
      Except.error "User not found" :=
  ⟨rfl, fun h => Except.noConfusion h, fun h => Except.noConfusion h⟩

/-- C1 (amended): for the USER route loader, a GraphQL error or missing data
rejects the streamed promise with "Failed to load user", a null user rejects
it with "User not found", and a successful resolution always carries the
(role-filtered) user value. -/
theorem user_load_error_rejections {β : Type}
    (filterRoles : List Role → List Role)
    (res : GqlResult (Option (UserData β))) :
    ((res.error = true ∨ res.data = none) →
      userLoadThen filterRoles res = Except.error "Failed to load user") ∧
    (res.error = false → res.data = some none →
      userLoadThen filterRoles res = Except.error "User not found") ∧
    (∀ u, userLoadThen filterRoles res = Except.ok u →
      res.error = false ∧
        ∃ u0, res.data = some (some u0) ∧
          u = { u0 with roles := filterRoles u0.roles }) := by
  obtain ⟨e, d⟩ := res
  refine ⟨?_, ?_, ?_⟩
  · rintro (h | h)
    · simp only at h
      simp [userLoadThen, h]
    · simp only at h
      subst h
      cases e <;> simp [userLoadThen]
  · intro he hd
    simp only at he hd
    subst he hd
    simp [userLoadThen]
  · intro u hu
    cases e with
    | true => simp [userLoadThen] at hu
    | false =>
      match d, hu with
      | some (some u0), hu =>
        refine ⟨rfl, u0, rfl, ?_⟩
        simpa [userLoadThen] using hu.symm

/-- C1 witness: the three branches at concrete inputs. -/
theorem user_load_error_rejections_witness :
    userLoadThen (β := Unit) id { error := true, data := none } =
      Except.error "Failed to load user" ∧
    userLoadThen (β := Unit) id { error := false, data := some none } =
      Except.error "User not found" ∧
    ((false = true ∨
        ({ error := false, data := some (some ⟨[], ()⟩) } :
          GqlResult (Option (UserData Unit))).data = none) →
      userLoadThen (β := Unit) id { error := false, data := some (some ⟨[], ()⟩) } =
        Except.error "Failed to load user") :=
  ⟨(user_load_error_rejections id { error := true, data := none }).1 (Or.inl rfl),
   (user_load_error_rejections id { error := false, data := some none }).2.1 rfl rfl,
   (user_load_error_rejections id
      { error := false, data := some (some ⟨[], ()⟩) }).1⟩

/-- C2: repeated loads with the same identity key issue no fetch, a load
with a new key issues exactly one new fetch, and over any navigation trace
no two consecutive fetches share a key. -/
theorem one_fetch_per_key_change (k knew : String) (rest trace : List String)
    (h : k ≠ knew) :
    fetchesFrom (some k) (k :: rest) = fetchesFrom (some k) rest ∧
    fetchesFrom (some k) (knew :: rest) = knew :: fetchesFrom (some knew) rest ∧
    List.Chain' (· ≠ ·) (fetchesFrom none trace) := by
  refine ⟨?_, ?_, (fetchesFrom_chain trace none).1⟩
  · rw [fetchesFrom, if_pos rfl]
  · rw [fetchesFrom, if_neg (by simpa using h)]

/-- C2 witness: a trace that repeats key "a" then navigates to "b". -/
theorem one_fetch_per_key_change_witness :
    fetchesFrom (some "a") ["a"] = fetchesFrom (some "a") [] ∧
    fetchesFrom (some "a") ["b"] = "b" :: fetchesFrom (some "b") [] ∧
    List.Chain' (· ≠ ·) (fetchesFrom none ["a", "a", "b"]) :=
  one_fetch_per_key_change "a" "b" [] ["a", "a", "b"] (by decide)

/-- C3: a `ProxyState` constructed with a pending request exposes exactly
the value the request resolves with, and propagates a rejection unchanged. -/
theorem proxy_state_propagates {A : Type} (p : PromiseOutcome A) :
    (∀ v, p = .resolved v →
      (ProxyState.mk p).consumerView = ConsumerView.success v) ∧
    (∀ r, p = .rejected r →
      (ProxyState.mk p).consumerView = ConsumerView.failure r) := by
  constructor
  · rintro v rfl; rfl
  · rintro r rfl; rfl

/-- C3 witness: a resolved and a rejected request, both at concrete values. -/
theorem proxy_state_propagates_witness :
    (ProxyState.mk (PromiseOutcome.resolved 1)).consumerView =
      ConsumerView.success 1 ∧
    (ProxyState.mk (PromiseOutcome.rejected (A := Nat) "e")).consumerView =
      ConsumerView.failure "e" :=
  ⟨(proxy_state_propagates (PromiseOutcome.resolved 1)).1 1 rfl,
   (proxy_state_propagates (PromiseOutcome.rejected (A := Nat) "e")).2 "e" rfl⟩

/-- C4: the three activity tables carry exactly the enumerated kind codes of
the DDL and are each ordered by (entity id, kind, timestamp). -/
theorem activity_tables_kind_codes :
    emote_activities.kindEnum =
      [⟨"UPLOAD", 0⟩, ⟨"EDIT", 1⟩, ⟨"MERGE", 2⟩, ⟨"DELETE", 3⟩] ∧
    emote_set_activities.kindEnum =
      [⟨"CREATE", 0⟩, ⟨"EDIT", 1⟩, ⟨"DELETE", 2⟩] ∧
    user_activities.kindEnum =
      [⟨"REGISTER", 0⟩, ⟨"LOGIN", 1⟩, ⟨"LOGOUT", 2⟩, ⟨"EDIT", 3⟩,
        ⟨"DELETE", 4⟩, ⟨"MERGE", 5⟩, ⟨"BAN", 6⟩, ⟨"UNBAN", 7⟩] ∧
    emote_activities.orderBy = ["emote_id", "kind", "timestamp"] ∧
    emote_set_activities.orderBy = ["emote_set_id", "kind", "timestamp"] ∧
    user_activities.orderBy = ["user_id", "kind", "timestamp"] :=
  ⟨rfl, rfl, rfl, rfl, rfl, rfl⟩

/-- C5: the container exposes gRPC on 50051 and metrics on 9000, the Service
maps port 50051 to the gRPC container port and 9000 to the metrics port, and
both probes hit path /health on the metrics port, which resolves to 9000. -/
theorem image_processor_ports :
    ({ containerPort := 50051, name := "grpc" } : ContainerPort) ∈
      imageProcessorContainer.ports ∧
    ({ containerPort := 9000, name := "metrics" } : ContainerPort) ∈
      imageProcessorContainer.ports ∧
    (∃ sp ∈ imageProcessorServicePorts, sp.name = "grpc" ∧ sp.port = 50051 ∧
      resolvePortRef imageProcessorContainer.ports sp.targetPort = some 50051) ∧
    (∃ sp ∈ imageProcessorServicePorts, sp.name = "metrics" ∧ sp.port = 9000 ∧
      resolvePortRef imageProcessorContainer.ports sp.targetPort = some 9000) ∧
    imageProcessorContainer.livenessProbe =
      some (.httpGet { port := .name "metrics", path := "/health" }) ∧
    imageProcessorContainer.readinessProbe =
      some (.httpGet { port := .name "metrics", path := "/health" }) ∧
    resolvePortRef imageProcessorContainer.ports (.name "metrics") = some 9000 := by
  refine ⟨by decide, by decide, ?_, ?_, rfl, rfl, by decide⟩
  · exact ⟨{ name := "grpc", port := 50051, targetPort := .name "grpc" },
      by decide, rfl, rfl, by decide⟩
  · exact ⟨{ name := "metrics", port := 9000, targetPort := .num 9000 },
      by decide, rfl, rfl, by decide⟩

/-- C6: a resolved empty list renders exactly the "No Special Events" row,
and a result row is rendered only for a member of a non-empty resolved
list. -/
theorem special_events_empty_state {E : Type}
    (s : AwaitState (Option (List E))) :
    renderSpecialEventsTbody (E := E) (.resolved (some [])) =
      [TbodyRow.noSpecialEvents] ∧
    (∀ ev, TbodyRow.result ev ∈ renderSpecialEventsTbody s →
      ∃ l, s = .resolved (some l) ∧ 0 < l.length ∧ ev ∈ l) := by
  constructor
  · rfl
  · intro ev hmem
    cases s with
    | pending => simp [renderSpecialEventsTbody] at hmem
    | rejected => simp [renderSpecialEventsTbody] at hmem
    | resolved v =>
      cases v with
      | none => simp [renderSpecialEventsTbody] at hmem
      | some evs =>
        by_cases hlen : 0 < evs.length
        · refine ⟨evs, rfl, hlen, ?_⟩
          rw [renderSpecialEventsTbody, if_pos hlen] at hmem
          rcases List.mem_map.mp hmem with ⟨x, hx, hxe⟩
          cases hxe
          exact hx
        · rw [renderSpecialEventsTbody, if_neg hlen] at hmem
          simp at hmem

/-- C6 witness: the empty-state equation, plus the membership implication
discharged on a singleton resolved list. -/
theorem special_events_empty_state_witness :
    renderSpecialEventsTbody (E := Nat) (.resolved (some [])) =
      [TbodyRow.noSpecialEvents] ∧
    (∃ l, (AwaitState.resolved (some [5]) : AwaitState (Option (List Nat))) =
      .resolved (some l) ∧ 0 < l.length ∧ 5 ∈ l) :=
  ⟨(special_events_empty_state (E := Nat) .pending).1,
   (special_events_empty_state (AwaitState.resolved (some [5]))).2 5
     (by simp [renderSpecialEventsTbody])⟩

/-- C7: the manifest declares both a liveness and a readiness probe, each an
HTTP GET check. -/
theorem image_processor_probes :
    (∃ g, imageProcessorContainer.livenessProbe = some (ProbeHandler.httpGet g)) ∧
    (∃ g, imageProcessorContainer.readinessProbe = some (ProbeHandler.httpGet g)) :=
  ⟨⟨{ port := .name "metrics", path := "/health" }, rfl⟩,
   ⟨{ port := .name "metrics", path := "/health" }, rfl⟩⟩

/-- C8: the settings load redirects with 303 to "/sign-in?continue=/settings"
exactly when the user store holds a falsy value, and returns normally
whenever a user is present. -/
theorem settings_load_redirect {U : Type} (u : Option U) :
    (settingsLoad u = .redirect 303 "/sign-in?continue=/settings" ↔ u = none) ∧
    (∀ x : U, settingsLoad (some x) = SettingsLoadResult.ok) := by
  constructor
  · constructor
    · intro h
      cases u with
      | none => rfl
      | some x => simp [settingsLoad] at h
    · rintro rfl; rfl
  · intro x; rfl

/-- C9: with no bound value, `selected` is initialized to the first option's
value on a non-empty options list, and to `undefined` on the empty list, in
which case the button renders the fallback select label. -/
theorem select_default_selected (options : List SelectOption) :
    (∀ o rest, options = o :: rest →
      Select.initSelected options = some o.value) ∧
    (options = [] →
      Select.initSelected options = none ∧
      Select.buttonLabel options (Select.initSelected options) =
        Select.labelSelect) := by
  constructor
  · rintro o rest rfl; rfl
  · rintro rfl; exact ⟨rfl, rfl⟩

/-- C9 witness: a singleton options list and the empty options list. -/
theorem select_default_selected_witness :
    Select.initSelected [⟨"a", "A"⟩] = some "a" ∧
    (Select.initSelected [] = none ∧
      Select.buttonLabel [] (Select.initSelected []) = Select.labelSelect) :=
  ⟨(select_default_selected [⟨"a", "A"⟩]).1 ⟨"a", "A"⟩ [] rfl,
   (select_default_selected []).2 rfl⟩

/-- C10: after `select(option)` the selected state equals that option's value
and the dropdown is closed. -/
theorem select_closes_dropdown (st : SelectState) (o : String) :
    (Select.select st o).selected = some o ∧
    (Select.select st o).expanded = false :=
  ⟨rfl, rfl⟩

end SevenTV
